import Mathlib

set_option maxHeartbeats 1000000

/-!
Shallow embedding of `src/youtube_downloader.py` (the FFmpeg dependency
resolver of the Youtube-Downloader repository).

The Python functions are modelled as explicit state-passing functions over
a filesystem/process state `FsWorld`.  External nondeterminism (which
operating system `platform.system()` reports, the outcomes of
`subprocess.run` calls, whether a network fetch succeeds, the entry list
of the downloaded archive, which files a package manager creates) is
supplied by an oracle record `PyEnv` fixed for the whole run.  Every
observable side effect (a spawned subprocess, an HTTP fetch, the yt-dlp
invocation) is recorded in an event trace, and Python exceptions are
modelled with `Except` over a `PyErr` type mirroring the exception
classes the source can actually raise.
-/

/-- Outcome of the `subprocess.run(["ffmpeg", "-version"], ..., timeout=5)`
probe, which is run without `check=True`: the process completed within the
timeout with some return code, it timed out (`subprocess.TimeoutExpired`),
or the executable was absent from the search path (`FileNotFoundError`). -/
inductive ProbeOutcome where
  | completed (returncode : Int)
  | timedOut
  | fileNotFound
  deriving DecidableEq, Repr

/-- Outcome of a `subprocess.run(..., check=True)` call: exit status zero,
nonzero exit status (`subprocess.CalledProcessError`), missing executable
(`FileNotFoundError`), or timeout (`subprocess.TimeoutExpired`). -/
inductive RunOutcome where
  | ok
  | calledProcessError
  | fileNotFound
  | timedOut
  deriving DecidableEq, Repr

/-- The spec's error taxonomy for its `InstallationError`:
reasons `NetworkFailure`, `ExtractionFailure`, `FilesystemFailure`,
`VerificationFailure`.  This type follows the spec's words; it exists so
that refinement claims about the error discipline can be stated.  The
source never constructs it. -/
inductive InstallReason where
  | networkFailure
  | extractionFailure
  | filesystemFailure
  | verificationFailure
  deriving DecidableEq, Repr

/-- The Python exceptions the resolver can raise or propagate.
`exception msg` is a bare `raise Exception(msg)`; `calledProcessError cmd`
is `subprocess.CalledProcessError` escaping a `check=True` run of `cmd`;
`badZipFile` is `zipfile.BadZipFile` from `zipfile.ZipFile(...)`;
`urlError` is `urllib.error.URLError` from `urllib.request.urlretrieve`.
`installationError` is the spec's tagged error (see `InstallReason`);
no function of this embedding ever produces it, mirroring that the source
defines no such class. -/
inductive PyErr where
  | exception (msg : String)
  | calledProcessError (cmd : List String)
  | badZipFile
  | urlError
  | installationError (reason : InstallReason)
  deriving DecidableEq, Repr

/-- Observable side effects: a spawned subprocess (`subprocess.run cmd`),
an HTTP GET (`urllib.request.urlretrieve`, or the `Invoke-WebRequest`
performed by the spawned PowerShell), and the yt-dlp download call. -/
inductive PyEvent where
  | run (cmd : List String)
  | net (url : String)
  | ytdlp (url : String)
  deriving DecidableEq, Repr

/-- Mutable process/filesystem state: the set of paths for which
`os.path.exists` answers true, and `os.environ["PATH"]`. -/
structure FsWorld where
  files : List String
  path_env : String
  deriving DecidableEq, Repr

instance (ε α : Type) [DecidableEq ε] [DecidableEq α] :
    DecidableEq (Except ε α) := fun x y =>
  match x, y with
  | Except.ok a, Except.ok b =>
    if h : a = b then isTrue (by rw [h])
    else isFalse (fun he => h (Except.ok.injEq a b ▸ he))
  | Except.error a, Except.error b =>
    if h : a = b then isTrue (by rw [h])
    else isFalse (fun he => h (Except.error.injEq a b ▸ he))
  | Except.ok _, Except.error _ => isFalse (fun he => Except.noConfusion he)
  | Except.error _, Except.ok _ => isFalse (fun he => Except.noConfusion he)

/-- Result of running a modelled Python function: the final state, the
trace of observable side effects, and either a return value or the
exception that escaped. -/
structure PyRes (α : Type) where
  world : FsWorld
  trace : List PyEvent
  out : Except PyErr α
  deriving DecidableEq, Repr

/-- Environment oracle: everything the run observes about the outside
world.  `base` is `get_base_path()` (it depends on `sys.frozen` and the
script location, so it is an input here); `system` is `platform.system()`;
`machine` is `platform.machine()`.  The remaining fields fix the outcomes
of the external actions: the `ffmpeg -version` probe, the Homebrew / apt /
yum subprocesses, the Windows PowerShell fetch, the macOS `urlretrieve`
fetch, whether `zipfile.ZipFile` opens the downloaded archive, the
archive's file-entry list, and the files a successful package-manager
install creates (a package manager installs into its own prefix on the
system search path, so these paths are an oracle input, not derived from
the resolver's install directory). -/
structure PyEnv where
  base : String
  system : String
  machine : String
  ffmpegProbe : ProbeOutcome
  brewVersion : RunOutcome
  brewInstall : RunOutcome
  aptInstall : RunOutcome
  yumInstall : RunOutcome
  winFetch : RunOutcome
  macFetch : Bool
  zipOpens : Bool
  zipEntries : List String
  pmFiles : List String
  deriving DecidableEq, Repr

/-- `os.pathsep`: `";"` on Windows, `":"` elsewhere. -/
def os_pathsep (system : String) : String :=
  if system == "Windows" then ";" else ":"

/-- `get_ffmpeg_paths()` (src lines 19-35): returns
`(ffmpeg_exe, ffmpeg_dir)` for the detected platform.  `os.path.join` is
modelled with the `"/"` separator throughout. -/
def get_ffmpeg_paths (base system : String) : String × String :=
  if system == "Windows" then
    let ffmpeg_dir := base ++ "/ffmpeg/ffmpeg-7.1-essentials_build/bin"
    (ffmpeg_dir ++ "/ffmpeg.exe", ffmpeg_dir)
  else if system == "Darwin" then
    let ffmpeg_dir := base ++ "/ffmpeg/bin"
    (ffmpeg_dir ++ "/ffmpeg", ffmpeg_dir)
  else
    let ffmpeg_dir := base ++ "/ffmpeg/bin"
    (ffmpeg_dir ++ "/ffmpeg", ffmpeg_dir)

/-- `zip_ref.extractall(dir)`: every entry of the archive is written to
`dir/<entry path>`, preserving the entry's internal directory structure.
No entry is selected or renamed. -/
def extractall (dir : String) (entries : List String) : List String :=
  entries.map (fun e => dir ++ "/" ++ e)

/-- The Windows download URL (src line 106). -/
def windows_ffmpeg_url : String :=
  "https://www.gyan.dev/ffmpeg/builds/ffmpeg-release-essentials.zip"

/-- The macOS static-build URL selection (src lines 140-144): the code
inspects `platform.machine()` but both the `arm64` branch and the Intel
branch assign the same URL. -/
def mac_ffmpeg_url (arch : String) : String :=
  if arch == "arm64" then "https://evermeet.cx/ffmpeg/ffmpeg-6.1.zip"
  else "https://evermeet.cx/ffmpeg/ffmpeg-6.1.zip"

/-- The PowerShell command of src lines 109-111 (the f-string interpolates
the URL and the zip path). -/
def invoke_webrequest_cmd (ffmpeg_zip : String) : List String :=
  ["powershell", "-Command",
    "Invoke-WebRequest -Uri " ++ windows_ffmpeg_url ++ " -OutFile " ++ ffmpeg_zip]

/-- `install_ffmpeg_windows(base_path)` (src lines 102-118): fetch the
zip with PowerShell `Invoke-WebRequest` (`check=True`), extract it with
`extractall` into `base/ffmpeg`, then remove the zip if it exists.  The
removal is NOT in a `finally`: if `ZipFile` raises, the zip stays. -/
def install_ffmpeg_windows (env : PyEnv) (w : FsWorld) (tr : List PyEvent) :
    PyRes Unit :=
  let ffmpeg_dir := env.base ++ "/ffmpeg"
  let ffmpeg_zip := env.base ++ "/ffmpeg.zip"
  let tr := tr ++ [PyEvent.run (invoke_webrequest_cmd ffmpeg_zip),
    PyEvent.net windows_ffmpeg_url]
  match env.winFetch with
  | RunOutcome.ok =>
    let w := { w with files := ffmpeg_zip :: w.files }
    if env.zipOpens then
      let w := { w with files := extractall ffmpeg_dir env.zipEntries ++ w.files }
      let w :=
        if ffmpeg_zip ∈ w.files then { w with files := w.files.erase ffmpeg_zip }
        else w
      ⟨w, tr, Except.ok ()⟩
    else
      ⟨w, tr, Except.error PyErr.badZipFile⟩
  | _ =>
    ⟨w, tr, Except.error (PyErr.calledProcessError (invoke_webrequest_cmd ffmpeg_zip))⟩

/-- `install_ffmpeg_mac(base_path)` (src lines 120-161): try Homebrew
(`brew --version` probe then `brew install ffmpeg`, both `check=True`,
all three caught exception classes fall through); otherwise download the
static zip with `urlretrieve`, extract it with `extractall` into
`base/ffmpeg/bin`, chmod the binary if present, and remove the zip if it
exists.  As on Windows, the removal is not in a `finally`. -/
def install_ffmpeg_mac (env : PyEnv) (w : FsWorld) (tr : List PyEvent) :
    PyRes Unit :=
  let ffmpeg_dir := env.base ++ "/ffmpeg/bin"
  let ffmpeg_zip := env.base ++ "/ffmpeg.zip"
  let ffmpeg_url := mac_ffmpeg_url env.machine
  let tr := tr ++ [PyEvent.run ["brew", "--version"]]
  let viaBrew := env.brewVersion == RunOutcome.ok
  let tr := if viaBrew then tr ++ [PyEvent.run ["brew", "install", "ffmpeg"]] else tr
  if viaBrew && env.brewInstall == RunOutcome.ok then
    ⟨{ w with files := env.pmFiles ++ w.files }, tr, Except.ok ()⟩
  else
    let tr := tr ++ [PyEvent.net ffmpeg_url]
    if env.macFetch then
      let w := { w with files := ffmpeg_zip :: w.files }
      if env.zipOpens then
        let w := { w with files := extractall ffmpeg_dir env.zipEntries ++ w.files }
        let w :=
          if ffmpeg_zip ∈ w.files then { w with files := w.files.erase ffmpeg_zip }
          else w
        ⟨w, tr, Except.ok ()⟩
      else
        ⟨w, tr, Except.error PyErr.badZipFile⟩
    else
      ⟨w, tr, Except.error PyErr.urlError⟩

/-- `install_ffmpeg_linux(base_path)` (src lines 163-185): try
`sudo apt install -y ffmpeg`, then `sudo yum install -y ffmpeg` (both
`check=True`, failures caught), else raise. -/
def install_ffmpeg_linux (env : PyEnv) (w : FsWorld) (tr : List PyEvent) :
    PyRes Unit :=
  let tr := tr ++ [PyEvent.run ["sudo", "apt", "install", "-y", "ffmpeg"]]
  match env.aptInstall with
  | RunOutcome.ok => ⟨{ w with files := env.pmFiles ++ w.files }, tr, Except.ok ()⟩
  | _ =>
    let tr := tr ++ [PyEvent.run ["sudo", "yum", "install", "-y", "ffmpeg"]]
    match env.yumInstall with
    | RunOutcome.ok => ⟨{ w with files := env.pmFiles ++ w.files }, tr, Except.ok ()⟩
    | _ =>
      ⟨w, tr, Except.error
        (PyErr.exception "Could not install FFmpeg automatically on Linux")⟩

/-- `install_ffmpeg()` (src lines 69-100): return immediately if the
expected binary already exists; otherwise dispatch on `platform.system()`.
The surrounding `try/except` only prints manual-install advice and
re-raises, so the outcome is unchanged. -/
def install_ffmpeg (env : PyEnv) (w : FsWorld) (tr : List PyEvent) :
    PyRes Unit :=
  let ffmpeg_exe := (get_ffmpeg_paths env.base env.system).1
  if ffmpeg_exe ∈ w.files then ⟨w, tr, Except.ok ()⟩
  else if env.system == "Windows" then install_ffmpeg_windows env w tr
  else if env.system == "Darwin" then install_ffmpeg_mac env w tr
  else install_ffmpeg_linux env w tr

/-- The tail of `check_ffmpeg()` after the probe failed (src lines
58-67): run `install_ffmpeg()` (its exception, if any, propagates), then
re-test existence of the expected binary path; if present, prepend its
directory to `PATH` and return it, otherwise raise. -/
def check_after_probe (env : PyEnv) (w : FsWorld) (tr : List PyEvent) :
    PyRes String :=
  let ffmpeg_exe := (get_ffmpeg_paths env.base env.system).1
  let ffmpeg_dir := (get_ffmpeg_paths env.base env.system).2
  let r := install_ffmpeg env w tr
  match r.out with
  | Except.error e => ⟨r.world, r.trace, Except.error e⟩
  | Except.ok _ =>
    if ffmpeg_exe ∈ r.world.files then
      ⟨{ r.world with
          path_env := ffmpeg_dir ++ os_pathsep env.system ++ r.world.path_env },
        r.trace, Except.ok ffmpeg_exe⟩
    else
      ⟨r.world, r.trace,
        Except.error (PyErr.exception
          "Failed to install FFmpeg. Please install it manually.")⟩

/-- `check_ffmpeg()` (src lines 37-67): if the expected binary exists,
prepend its directory to `PATH` and return the absolute path; otherwise
probe `ffmpeg -version` on the system search path (timeout and
`FileNotFoundError` are caught, a nonzero exit simply falls through) and
return the sentinel `"ffmpeg"` on exit status zero; otherwise install and
re-check. -/
def check_ffmpeg (env : PyEnv) (w : FsWorld) : PyRes String :=
  let ffmpeg_exe := (get_ffmpeg_paths env.base env.system).1
  let ffmpeg_dir := (get_ffmpeg_paths env.base env.system).2
  if ffmpeg_exe ∈ w.files then
    ⟨{ w with path_env := ffmpeg_dir ++ os_pathsep env.system ++ w.path_env },
      [], Except.ok ffmpeg_exe⟩
  else
    let tr := [PyEvent.run ["ffmpeg", "-version"]]
    match env.ffmpegProbe with
    | ProbeOutcome.completed rc =>
      if rc == 0 then ⟨w, tr, Except.ok "ffmpeg"⟩
      else check_after_probe env w tr
    | ProbeOutcome.timedOut => check_after_probe env w tr
    | ProbeOutcome.fileNotFound => check_after_probe env w tr

/-- `download_video(url, save_path)` (src lines 187-215), restricted to
the resolver's scope: the whole body is wrapped in
`try/except Exception`, whose handler prints the error and the traceback
and then falls off the end of the function, so `download_video` returns
`None` normally whether or not `check_ffmpeg` raised.  The yt-dlp
invocation itself is external to the resolver and is recorded as a trace
event. -/
def download_video (env : PyEnv) (w : FsWorld) (url : String) : PyRes Unit :=
  let r := check_ffmpeg env w
  match r.out with
  | Except.ok _ => ⟨r.world, r.trace ++ [PyEvent.ytdlp url], Except.ok ()⟩
  | Except.error _ => ⟨r.world, r.trace, Except.ok ()⟩

/-- Number of network accesses in a trace. -/
def netCount (tr : List PyEvent) : Nat :=
  (tr.filter fun e => match e with | PyEvent.net _ => true | _ => false).length

/-- Whether an escaped exception is the spec's tagged `InstallationError`. -/
def isInstallationError : PyErr → Bool
  | PyErr.installationError _ => true
  | _ => false

/-! ### Concrete scenarios used by closed counterexamples and witnesses -/

/-- An empty filesystem with some pre-existing `PATH`. -/
def w0 : FsWorld := ⟨[], "PATH0"⟩

/-- Linux, nothing cached, probe misses, apt and yum both fail. -/
def envLinuxFail : PyEnv :=
  ⟨"/app", "Linux", "x86_64", ProbeOutcome.fileNotFound,
    RunOutcome.fileNotFound, RunOutcome.fileNotFound,
    RunOutcome.calledProcessError, RunOutcome.calledProcessError,
    RunOutcome.fileNotFound, false, false, [], []⟩

/-- Linux, nothing cached, probe misses, apt succeeds and places the
binary on the system search path (`/usr/bin/ffmpeg`). -/
def envLinuxApt : PyEnv :=
  ⟨"/app", "Linux", "x86_64", ProbeOutcome.fileNotFound,
    RunOutcome.fileNotFound, RunOutcome.fileNotFound,
    RunOutcome.ok, RunOutcome.fileNotFound,
    RunOutcome.fileNotFound, false, false, [], ["/usr/bin/ffmpeg"]⟩

/-- macOS, nothing cached, probe misses, no Homebrew, static download
succeeds and the archive holds the binary at the archive root. -/
def envMacRoot : PyEnv :=
  ⟨"/app", "Darwin", "arm64", ProbeOutcome.fileNotFound,
    RunOutcome.fileNotFound, RunOutcome.fileNotFound,
    RunOutcome.calledProcessError, RunOutcome.calledProcessError,
    RunOutcome.fileNotFound, true, true, ["ffmpeg"], []⟩

/-- Same as `envMacRoot` but the binary sits three directories deep in
the archive. -/
def envMacNested : PyEnv :=
  ⟨"/app", "Darwin", "arm64", ProbeOutcome.fileNotFound,
    RunOutcome.fileNotFound, RunOutcome.fileNotFound,
    RunOutcome.calledProcessError, RunOutcome.calledProcessError,
    RunOutcome.fileNotFound, true, true, ["sub1/sub2/ffmpeg"], []⟩

/-- Same as `envMacRoot` but the downloaded file is not a valid zip, so
`zipfile.ZipFile` raises `BadZipFile` after the archive was written. -/
def envMacBadZip : PyEnv :=
  ⟨"/app", "Darwin", "arm64", ProbeOutcome.fileNotFound,
    RunOutcome.fileNotFound, RunOutcome.fileNotFound,
    RunOutcome.calledProcessError, RunOutcome.calledProcessError,
    RunOutcome.fileNotFound, true, false, ["ffmpeg"], []⟩

/-- macOS with the cached binary already present. -/
def wMacCached : FsWorld := ⟨["/app/ffmpeg/bin/ffmpeg"], "SYS"⟩

/-- macOS environment matching `wMacCached` (all external actions would
fail, which the cached branch never consults). -/
def envMacCached : PyEnv :=
  ⟨"/app", "Darwin", "arm64", ProbeOutcome.fileNotFound,
    RunOutcome.fileNotFound, RunOutcome.fileNotFound,
    RunOutcome.calledProcessError, RunOutcome.calledProcessError,
    RunOutcome.fileNotFound, false, false, [], []⟩

/-! ### String helpers -/

theorem str_app_left_cancel {a b c : String} (h : a ++ b = a ++ c) : b = c := by
  have hd : (a ++ b).data = (a ++ c).data := by rw [h]
  rw [String.data_append, String.data_append] at hd
  have h2 := List.append_cancel_left hd
  cases b; cases c
  exact congrArg String.mk h2

theorem str_app_ne (a : String) {b c : String} (h : b ≠ c) : a ++ b ≠ a ++ c :=
  fun he => h (str_app_left_cancel he)

/-- Normal form for the expected binary path. -/
theorem get_ffmpeg_paths_exe (base system : String) :
    (get_ffmpeg_paths base system).1 =
      base ++ (if system == "Windows" then
        "/ffmpeg/ffmpeg-7.1-essentials_build/bin/ffmpeg.exe"
      else "/ffmpeg/bin/ffmpeg") := by
  by_cases h : system == "Windows"
  · simp [get_ffmpeg_paths, h]
    rw [String.append_assoc]
    congr 1
  · by_cases h2 : system == "Darwin" <;>
      · simp [get_ffmpeg_paths, h, h2]
        rw [String.append_assoc]
        congr 1

/-- Normal form for the binary's directory. -/
theorem get_ffmpeg_paths_dir (base system : String) :
    (get_ffmpeg_paths base system).2 =
      base ++ (if system == "Windows" then
        "/ffmpeg/ffmpeg-7.1-essentials_build/bin"
      else "/ffmpeg/bin") := by
  unfold get_ffmpeg_paths
  by_cases h : system == "Windows"
  · simp [h]
  · by_cases h2 : system == "Darwin" <;> simp [h, h2]

/-- The expected binary path is never the sentinel `"ffmpeg"`. -/
theorem ffmpeg_exe_ne_sentinel (base system : String) :
    (get_ffmpeg_paths base system).1 ≠ "ffmpeg" := by
  rw [get_ffmpeg_paths_exe]
  intro h
  have hlen := congrArg String.length h
  rw [String.length_append] at hlen
  have e0 : ("ffmpeg" : String).length = 6 := by decide
  by_cases hw : system == "Windows"
  · rw [if_pos hw] at hlen
    have e1 : 6 <
        ("/ffmpeg/ffmpeg-7.1-essentials_build/bin/ffmpeg.exe" : String).length := by
      decide
    omega
  · rw [if_neg hw] at hlen
    have e1 : 6 < ("/ffmpeg/bin/ffmpeg" : String).length := by decide
    omega

/-- The expected binary path is never the temporary archive path. -/
theorem ffmpeg_exe_ne_zip (base system : String) :
    (get_ffmpeg_paths base system).1 ≠ base ++ "/ffmpeg.zip" := by
  rw [get_ffmpeg_paths_exe]
  by_cases hw : system == "Windows" <;> simp only [hw, if_true, if_false] <;>
    exact str_app_ne base (by decide)

/-! ### Branch characterization lemmas -/

theorem check_ffmpeg_cached (env : PyEnv) (w : FsWorld)
    (h : (get_ffmpeg_paths env.base env.system).1 ∈ w.files) :
    check_ffmpeg env w =
      ⟨⟨w.files,
        (get_ffmpeg_paths env.base env.system).2 ++ os_pathsep env.system ++ w.path_env⟩,
        [], Except.ok (get_ffmpeg_paths env.base env.system).1⟩ := by
  unfold check_ffmpeg
  simp [h]

theorem check_ffmpeg_probe_hit (env : PyEnv) (w : FsWorld)
    (h : (get_ffmpeg_paths env.base env.system).1 ∉ w.files)
    (hp : env.ffmpegProbe = ProbeOutcome.completed 0) :
    check_ffmpeg env w =
      ⟨w, [PyEvent.run ["ffmpeg", "-version"]], Except.ok "ffmpeg"⟩ := by
  unfold check_ffmpeg
  simp [h, hp]

theorem check_ffmpeg_probe_nonzero (env : PyEnv) (w : FsWorld) (rc : Int)
    (h : (get_ffmpeg_paths env.base env.system).1 ∉ w.files)
    (hp : env.ffmpegProbe = ProbeOutcome.completed rc) (hrc : rc ≠ 0) :
    check_ffmpeg env w =
      check_after_probe env w [PyEvent.run ["ffmpeg", "-version"]] := by
  unfold check_ffmpeg
  simp [h, hp, hrc]

theorem check_ffmpeg_probe_timeout (env : PyEnv) (w : FsWorld)
    (h : (get_ffmpeg_paths env.base env.system).1 ∉ w.files)
    (hp : env.ffmpegProbe = ProbeOutcome.timedOut) :
    check_ffmpeg env w =
      check_after_probe env w [PyEvent.run ["ffmpeg", "-version"]] := by
  unfold check_ffmpeg
  simp [h, hp]

theorem check_ffmpeg_probe_notfound (env : PyEnv) (w : FsWorld)
    (h : (get_ffmpeg_paths env.base env.system).1 ∉ w.files)
    (hp : env.ffmpegProbe = ProbeOutcome.fileNotFound) :
    check_ffmpeg env w =
      check_after_probe env w [PyEvent.run ["ffmpeg", "-version"]] := by
  unfold check_ffmpeg
  simp [h, hp]

theorem install_linux_apt (env : PyEnv) (w : FsWorld) (tr : List PyEvent)
    (h : env.aptInstall = RunOutcome.ok) :
    install_ffmpeg_linux env w tr =
      ⟨⟨env.pmFiles ++ w.files, w.path_env⟩,
        tr ++ [PyEvent.run ["sudo", "apt", "install", "-y", "ffmpeg"]],
        Except.ok ()⟩ := by
  unfold install_ffmpeg_linux
  simp [h]

theorem install_linux_yum (env : PyEnv) (w : FsWorld) (tr : List PyEvent)
    (ha : env.aptInstall ≠ RunOutcome.ok) (hy : env.yumInstall = RunOutcome.ok) :
    install_ffmpeg_linux env w tr =
      ⟨⟨env.pmFiles ++ w.files, w.path_env⟩,
        tr ++ [PyEvent.run ["sudo", "apt", "install", "-y", "ffmpeg"],
          PyEvent.run ["sudo", "yum", "install", "-y", "ffmpeg"]],
        Except.ok ()⟩ := by
  unfold install_ffmpeg_linux
  cases h : env.aptInstall <;> simp_all

theorem install_linux_fail (env : PyEnv) (w : FsWorld) (tr : List PyEvent)
    (ha : env.aptInstall ≠ RunOutcome.ok) (hy : env.yumInstall ≠ RunOutcome.ok) :
    install_ffmpeg_linux env w tr =
      ⟨w, tr ++ [PyEvent.run ["sudo", "apt", "install", "-y", "ffmpeg"],
          PyEvent.run ["sudo", "yum", "install", "-y", "ffmpeg"]],
        Except.error
          (PyErr.exception "Could not install FFmpeg automatically on Linux")⟩ := by
  unfold install_ffmpeg_linux
  cases h1 : env.aptInstall <;> cases h2 : env.yumInstall <;> simp_all

theorem install_windows_fetch_fail (env : PyEnv) (w : FsWorld) (tr : List PyEvent)
    (h : env.winFetch ≠ RunOutcome.ok) :
    install_ffmpeg_windows env w tr =
      ⟨w, tr ++ [PyEvent.run (invoke_webrequest_cmd (env.base ++ "/ffmpeg.zip")),
          PyEvent.net windows_ffmpeg_url],
        Except.error
          (PyErr.calledProcessError (invoke_webrequest_cmd (env.base ++ "/ffmpeg.zip")))⟩ := by
  unfold install_ffmpeg_windows
  cases hw : env.winFetch <;> simp_all

theorem install_windows_badzip (env : PyEnv) (w : FsWorld) (tr : List PyEvent)
    (h : env.winFetch = RunOutcome.ok) (hz : env.zipOpens = false) :
    install_ffmpeg_windows env w tr =
      ⟨⟨(env.base ++ "/ffmpeg.zip") :: w.files, w.path_env⟩,
        tr ++ [PyEvent.run (invoke_webrequest_cmd (env.base ++ "/ffmpeg.zip")),
          PyEvent.net windows_ffmpeg_url],
        Except.error PyErr.badZipFile⟩ := by
  unfold install_ffmpeg_windows
  simp [h, hz]

theorem install_windows_ok (env : PyEnv) (w : FsWorld) (tr : List PyEvent)
    (h : env.winFetch = RunOutcome.ok) (hz : env.zipOpens = true) :
    install_ffmpeg_windows env w tr =
      ⟨⟨(extractall (env.base ++ "/ffmpeg") env.zipEntries
            ++ (env.base ++ "/ffmpeg.zip") :: w.files).erase (env.base ++ "/ffmpeg.zip"),
          w.path_env⟩,
        tr ++ [PyEvent.run (invoke_webrequest_cmd (env.base ++ "/ffmpeg.zip")),
          PyEvent.net windows_ffmpeg_url],
        Except.ok ()⟩ := by
  unfold install_ffmpeg_windows
  have hm : (env.base ++ "/ffmpeg.zip") ∈
      extractall (env.base ++ "/ffmpeg") env.zipEntries
        ++ (env.base ++ "/ffmpeg.zip") :: w.files := by
    simp
  simp [h, hz, hm]

theorem install_mac_brew (env : PyEnv) (w : FsWorld) (tr : List PyEvent)
    (hv : env.brewVersion = RunOutcome.ok) (hi : env.brewInstall = RunOutcome.ok) :
    install_ffmpeg_mac env w tr =
      ⟨⟨env.pmFiles ++ w.files, w.path_env⟩,
        tr ++ [PyEvent.run ["brew", "--version"],
          PyEvent.run ["brew", "install", "ffmpeg"]],
        Except.ok ()⟩ := by
  unfold install_ffmpeg_mac
  simp [hv, hi]

theorem install_mac_fetch_fail (env : PyEnv) (w : FsWorld) (tr : List PyEvent)
    (hb : ¬(env.brewVersion = RunOutcome.ok ∧ env.brewInstall = RunOutcome.ok))
    (hf : env.macFetch = false) :
    install_ffmpeg_mac env w tr =
      ⟨w, tr ++ (if env.brewVersion = RunOutcome.ok then
            [PyEvent.run ["brew", "--version"], PyEvent.run ["brew", "install", "ffmpeg"]]
          else [PyEvent.run ["brew", "--version"]])
          ++ [PyEvent.net (mac_ffmpeg_url env.machine)],
        Except.error PyErr.urlError⟩ := by
  unfold install_ffmpeg_mac
  by_cases hv : env.brewVersion = RunOutcome.ok
  · by_cases hi : env.brewInstall = RunOutcome.ok
    · exact absurd ⟨hv, hi⟩ hb
    · simp [hv, hi, hf]
  · simp [hv, hf]

theorem install_mac_badzip (env : PyEnv) (w : FsWorld) (tr : List PyEvent)
    (hb : ¬(env.brewVersion = RunOutcome.ok ∧ env.brewInstall = RunOutcome.ok))
    (hf : env.macFetch = true) (hz : env.zipOpens = false) :
    install_ffmpeg_mac env w tr =
      ⟨⟨(env.base ++ "/ffmpeg.zip") :: w.files, w.path_env⟩,
        tr ++ (if env.brewVersion = RunOutcome.ok then
            [PyEvent.run ["brew", "--version"], PyEvent.run ["brew", "install", "ffmpeg"]]
          else [PyEvent.run ["brew", "--version"]])
          ++ [PyEvent.net (mac_ffmpeg_url env.machine)],
        Except.error PyErr.badZipFile⟩ := by
  unfold install_ffmpeg_mac
  by_cases hv : env.brewVersion = RunOutcome.ok
  · by_cases hi : env.brewInstall = RunOutcome.ok
    · exact absurd ⟨hv, hi⟩ hb
    · simp [hv, hi, hf, hz]
  · simp [hv, hf, hz]

theorem install_mac_static_ok (env : PyEnv) (w : FsWorld) (tr : List PyEvent)
    (hb : ¬(env.brewVersion = RunOutcome.ok ∧ env.brewInstall = RunOutcome.ok))
    (hf : env.macFetch = true) (hz : env.zipOpens = true) :
    install_ffmpeg_mac env w tr =
      ⟨⟨(extractall (env.base ++ "/ffmpeg/bin") env.zipEntries
            ++ (env.base ++ "/ffmpeg.zip") :: w.files).erase (env.base ++ "/ffmpeg.zip"),
          w.path_env⟩,
        tr ++ (if env.brewVersion = RunOutcome.ok then
            [PyEvent.run ["brew", "--version"], PyEvent.run ["brew", "install", "ffmpeg"]]
          else [PyEvent.run ["brew", "--version"]])
          ++ [PyEvent.net (mac_ffmpeg_url env.machine)],
        Except.ok ()⟩ := by
  unfold install_ffmpeg_mac
  have hm : (env.base ++ "/ffmpeg.zip") ∈
      extractall (env.base ++ "/ffmpeg/bin") env.zipEntries
        ++ (env.base ++ "/ffmpeg.zip") :: w.files := by
    simp
  by_cases hv : env.brewVersion = RunOutcome.ok
  · by_cases hi : env.brewInstall = RunOutcome.ok
    · exact absurd ⟨hv, hi⟩ hb
    · simp [hv, hi, hf, hz, hm]
  · simp [hv, hf, hz, hm]

theorem install_ffmpeg_cached (env : PyEnv) (w : FsWorld) (tr : List PyEvent)
    (h : (get_ffmpeg_paths env.base env.system).1 ∈ w.files) :
    install_ffmpeg env w tr = ⟨w, tr, Except.ok ()⟩ := by
  unfold install_ffmpeg
  simp [h]

theorem install_ffmpeg_windows_dispatch (env : PyEnv) (w : FsWorld) (tr : List PyEvent)
    (hnc : (get_ffmpeg_paths env.base env.system).1 ∉ w.files)
    (hsys : env.system = "Windows") :
    install_ffmpeg env w tr = install_ffmpeg_windows env w tr := by
  unfold install_ffmpeg
  rw [hsys] at hnc
  simp [hnc, hsys]

theorem install_ffmpeg_darwin_dispatch (env : PyEnv) (w : FsWorld) (tr : List PyEvent)
    (hnc : (get_ffmpeg_paths env.base env.system).1 ∉ w.files)
    (hsys : env.system = "Darwin") :
    install_ffmpeg env w tr = install_ffmpeg_mac env w tr := by
  unfold install_ffmpeg
  rw [hsys] at hnc
  simp [hnc, hsys]

theorem install_ffmpeg_linux_dispatch (env : PyEnv) (w : FsWorld) (tr : List PyEvent)
    (hnc : (get_ffmpeg_paths env.base env.system).1 ∉ w.files)
    (h1 : env.system ≠ "Windows") (h2 : env.system ≠ "Darwin") :
    install_ffmpeg env w tr = install_ffmpeg_linux env w tr := by
  unfold install_ffmpeg
  simp [hnc, h1, h2]

theorem check_after_probe_err (env : PyEnv) (w : FsWorld) (tr : List PyEvent) (e : PyErr)
    (h : (install_ffmpeg env w tr).out = Except.error e) :
    check_after_probe env w tr =
      ⟨(install_ffmpeg env w tr).world, (install_ffmpeg env w tr).trace,
        Except.error e⟩ := by
  unfold check_after_probe
  simp [h]

theorem check_after_probe_hit (env : PyEnv) (w : FsWorld) (tr : List PyEvent)
    (h : (install_ffmpeg env w tr).out = Except.ok ())
    (hm : (get_ffmpeg_paths env.base env.system).1 ∈ (install_ffmpeg env w tr).world.files) :
    check_after_probe env w tr =
      ⟨⟨(install_ffmpeg env w tr).world.files,
          (get_ffmpeg_paths env.base env.system).2 ++ os_pathsep env.system
            ++ (install_ffmpeg env w tr).world.path_env⟩,
        (install_ffmpeg env w tr).trace,
        Except.ok (get_ffmpeg_paths env.base env.system).1⟩ := by
  unfold check_after_probe
  simp [h, hm]

theorem check_after_probe_miss (env : PyEnv) (w : FsWorld) (tr : List PyEvent)
    (h : (install_ffmpeg env w tr).out = Except.ok ())
    (hm : (get_ffmpeg_paths env.base env.system).1 ∉ (install_ffmpeg env w tr).world.files) :
    check_after_probe env w tr =
      ⟨(install_ffmpeg env w tr).world, (install_ffmpeg env w tr).trace,
        Except.error
          (PyErr.exception "Failed to install FFmpeg. Please install it manually.")⟩ := by
  unfold check_after_probe
  simp [h, hm]

theorem check_after_probe_not_sentinel (env : PyEnv) (w : FsWorld) (tr : List PyEvent) :
    (check_after_probe env w tr).out ≠ Except.ok "ffmpeg" := by
  cases hout : (install_ffmpeg env w tr).out with
  | error e =>
    rw [check_after_probe_err env w tr e hout]
    simp
  | ok u =>
    cases u
    by_cases hm :
        (get_ffmpeg_paths env.base env.system).1 ∈ (install_ffmpeg env w tr).world.files
    · rw [check_after_probe_hit env w tr hout hm]
      simpa using ffmpeg_exe_ne_sentinel env.base env.system
    · rw [check_after_probe_miss env w tr hout hm]
      simp

/-- Any exception escaping `install_ffmpeg` leaves the expected binary
absent and is not the spec's tagged `InstallationError`. -/
theorem install_ffmpeg_error_shape (env : PyEnv) (w : FsWorld) (tr : List PyEvent)
    (e : PyErr)
    (hnc : (get_ffmpeg_paths env.base env.system).1 ∉ w.files)
    (h : (install_ffmpeg env w tr).out = Except.error e) :
    (get_ffmpeg_paths env.base env.system).1 ∉ (install_ffmpeg env w tr).world.files
    ∧ isInstallationError e = false := by
  have hzip := ffmpeg_exe_ne_zip env.base env.system
  by_cases hw : env.system = "Windows"
  · rw [install_ffmpeg_windows_dispatch env w tr hnc hw] at h ⊢
    cases hfetch : env.winFetch with
    | ok =>
      cases hz : env.zipOpens with
      | true => rw [install_windows_ok env w tr hfetch hz] at h; simp at h
      | false =>
        rw [install_windows_badzip env w tr hfetch hz] at h ⊢
        simp at h
        subst h
        simp [List.mem_cons, hzip, hnc, isInstallationError]
    | calledProcessError =>
      rw [install_windows_fetch_fail env w tr (by simp [hfetch])] at h ⊢
      simp at h
      subst h
      simp [hnc, isInstallationError]
    | fileNotFound =>
      rw [install_windows_fetch_fail env w tr (by simp [hfetch])] at h ⊢
      simp at h
      subst h
      simp [hnc, isInstallationError]
    | timedOut =>
      rw [install_windows_fetch_fail env w tr (by simp [hfetch])] at h ⊢
      simp at h
      subst h
      simp [hnc, isInstallationError]
  · by_cases hd : env.system = "Darwin"
    · rw [install_ffmpeg_darwin_dispatch env w tr hnc hd] at h ⊢
      by_cases hb : env.brewVersion = RunOutcome.ok ∧ env.brewInstall = RunOutcome.ok
      · rw [install_mac_brew env w tr hb.1 hb.2] at h
        simp at h
      · cases hf : env.macFetch with
        | false =>
          rw [install_mac_fetch_fail env w tr hb hf] at h ⊢
          simp at h
          subst h
          simp [hnc, isInstallationError]
        | true =>
          cases hz : env.zipOpens with
          | true => rw [install_mac_static_ok env w tr hb hf hz] at h; simp at h
          | false =>
            rw [install_mac_badzip env w tr hb hf hz] at h ⊢
            simp at h
            subst h
            simp [List.mem_cons, hzip, hnc, isInstallationError]
    · rw [install_ffmpeg_linux_dispatch env w tr hnc hw hd] at h ⊢
      by_cases ha : env.aptInstall = RunOutcome.ok
      · rw [install_linux_apt env w tr ha] at h
        simp at h
      · by_cases hy : env.yumInstall = RunOutcome.ok
        · rw [install_linux_yum env w tr ha hy] at h
          simp at h
        · rw [install_linux_fail env w tr ha hy] at h ⊢
          simp at h
          subst h
          simp [hnc, isInstallationError]

/-- Any exception escaping the install-then-recheck tail leaves the
expected binary absent and is untagged. -/
theorem check_after_probe_error_shape (env : PyEnv) (w : FsWorld) (tr : List PyEvent)
    (e : PyErr)
    (hnc : (get_ffmpeg_paths env.base env.system).1 ∉ w.files)
    (h : (check_after_probe env w tr).out = Except.error e) :
    (get_ffmpeg_paths env.base env.system).1 ∉ (check_after_probe env w tr).world.files
    ∧ isInstallationError e = false := by
  cases hout : (install_ffmpeg env w tr).out with
  | error e' =>
    rw [check_after_probe_err env w tr e' hout] at h ⊢
    simp at h
    subst h
    exact install_ffmpeg_error_shape env w tr _ hnc hout
  | ok u =>
    cases u
    by_cases hm :
        (get_ffmpeg_paths env.base env.system).1 ∈ (install_ffmpeg env w tr).world.files
    · rw [check_after_probe_hit env w tr hout hm] at h
      simp at h
    · rw [check_after_probe_miss env w tr hout hm] at h ⊢
      simp at h
      subst h
      exact ⟨hm, rfl⟩

theorem netCount_append (a b : List PyEvent) :
    netCount (a ++ b) = netCount a + netCount b := by
  simp [netCount, List.filter_append]

theorem netCount_windows (env : PyEnv) (w : FsWorld) (tr : List PyEvent) :
    netCount (install_ffmpeg_windows env w tr).trace = netCount tr + 1 := by
  cases h : env.winFetch with
  | ok =>
    cases hz : env.zipOpens with
    | true =>
      rw [install_windows_ok env w tr h hz]
      simp [netCount_append, netCount, List.filter]
    | false =>
      rw [install_windows_badzip env w tr h hz]
      simp [netCount_append, netCount, List.filter]
  | calledProcessError =>
    rw [install_windows_fetch_fail env w tr (by simp [h])]
    simp [netCount_append, netCount, List.filter]
  | fileNotFound =>
    rw [install_windows_fetch_fail env w tr (by simp [h])]
    simp [netCount_append, netCount, List.filter]
  | timedOut =>
    rw [install_windows_fetch_fail env w tr (by simp [h])]
    simp [netCount_append, netCount, List.filter]

theorem netCount_brew_part (env : PyEnv) :
    netCount (if env.brewVersion = RunOutcome.ok then
        [PyEvent.run ["brew", "--version"], PyEvent.run ["brew", "install", "ffmpeg"]]
      else [PyEvent.run ["brew", "--version"]]) = 0 := by
  split_ifs <;> simp [netCount, List.filter]

theorem netCount_mac (env : PyEnv) (w : FsWorld) (tr : List PyEvent) :
    netCount (install_ffmpeg_mac env w tr).trace ≤ netCount tr + 1 := by
  by_cases hb : env.brewVersion = RunOutcome.ok ∧ env.brewInstall = RunOutcome.ok
  · rw [install_mac_brew env w tr hb.1 hb.2]
    simp [netCount_append, netCount, List.filter]
  · have hbp := netCount_brew_part env
    cases hf : env.macFetch with
    | false =>
      rw [install_mac_fetch_fail env w tr hb hf]
      simp only [netCount_append, hbp]
      simp [netCount, List.filter]
    | true =>
      cases hz : env.zipOpens with
      | true =>
        rw [install_mac_static_ok env w tr hb hf hz]
        simp only [netCount_append, hbp]
        simp [netCount, List.filter]
      | false =>
        rw [install_mac_badzip env w tr hb hf hz]
        simp only [netCount_append, hbp]
        simp [netCount, List.filter]

theorem netCount_linux (env : PyEnv) (w : FsWorld) (tr : List PyEvent) :
    netCount (install_ffmpeg_linux env w tr).trace = netCount tr := by
  unfold install_ffmpeg_linux
  cases h1 : env.aptInstall <;> cases h2 : env.yumInstall <;>
    simp [netCount_append, netCount, List.filter]

theorem netCount_install (env : PyEnv) (w : FsWorld) (tr : List PyEvent) :
    netCount (install_ffmpeg env w tr).trace ≤ netCount tr + 1 := by
  by_cases hm : (get_ffmpeg_paths env.base env.system).1 ∈ w.files
  · rw [install_ffmpeg_cached env w tr hm]
    simp
  · by_cases h1 : env.system = "Windows"
    · rw [install_ffmpeg_windows_dispatch env w tr hm h1, netCount_windows]
    · by_cases h2 : env.system = "Darwin"
      · rw [install_ffmpeg_darwin_dispatch env w tr hm h2]
        exact netCount_mac env w tr
      · rw [install_ffmpeg_linux_dispatch env w tr hm h1 h2, netCount_linux]
        omega

/-- One resolution performs at most one network fetch: no retry anywhere. -/
theorem netCount_check_ffmpeg (env : PyEnv) (w : FsWorld) :
    netCount (check_ffmpeg env w).trace ≤ 1 := by
  by_cases hm : (get_ffmpeg_paths env.base env.system).1 ∈ w.files
  · rw [check_ffmpeg_cached env w hm]
    simp [netCount, List.filter]
  · have hafter : ∀ u : Unit,
        netCount (check_after_probe env w [PyEvent.run ["ffmpeg", "-version"]]).trace ≤ 1 := by
      intro _
      unfold check_after_probe
      have hi := netCount_install env w [PyEvent.run ["ffmpeg", "-version"]]
      have h0 : netCount [PyEvent.run ["ffmpeg", "-version"]] = 0 := by
        simp [netCount, List.filter]
      cases hout : (install_ffmpeg env w [PyEvent.run ["ffmpeg", "-version"]]).out with
      | error e => simp [hout]; omega
      | ok u =>
        cases u
        by_cases hm2 : (get_ffmpeg_paths env.base env.system).1
            ∈ (install_ffmpeg env w [PyEvent.run ["ffmpeg", "-version"]]).world.files <;>
          simp [hout, hm2] <;> omega
    cases hp : env.ffmpegProbe with
    | completed rc =>
      by_cases hrc : rc = 0
      · subst hrc
        rw [check_ffmpeg_probe_hit env w hm hp]
        simp [netCount, List.filter]
      · rw [check_ffmpeg_probe_nonzero env w rc hm hp hrc]
        exact hafter ()
    | timedOut =>
      rw [check_ffmpeg_probe_timeout env w hm hp]
      exact hafter ()
    | fileNotFound =>
      rw [check_ffmpeg_probe_notfound env w hm hp]
      exact hafter ()

/-- Linux, nothing cached, probe completes with exit status zero. -/
def envLinuxProbe : PyEnv :=
  ⟨"/app", "Linux", "x86_64", ProbeOutcome.completed 0,
    RunOutcome.fileNotFound, RunOutcome.fileNotFound,
    RunOutcome.calledProcessError, RunOutcome.calledProcessError,
    RunOutcome.fileNotFound, false, false, [], []⟩

/-- When the binary is not cached and the probe did not exit zero,
`check_ffmpeg` proceeds to the install-then-recheck tail. -/
theorem check_ffmpeg_fallthrough (env : PyEnv) (w : FsWorld)
    (hnc : (get_ffmpeg_paths env.base env.system).1 ∉ w.files)
    (hp : env.ffmpegProbe ≠ ProbeOutcome.completed 0) :
    check_ffmpeg env w =
      check_after_probe env w [PyEvent.run ["ffmpeg", "-version"]] := by
  cases hpr : env.ffmpegProbe with
  | completed rc =>
    have hrc : rc ≠ 0 := by
      intro hc
      rw [hc] at hpr
      exact hp hpr
    exact check_ffmpeg_probe_nonzero env w rc hnc hpr hrc
  | timedOut => exact check_ffmpeg_probe_timeout env w hnc hpr
  | fileNotFound => exact check_ffmpeg_probe_notfound env w hnc hpr

/-! ### Claims -/

/-- Claim C2 counterexample: with the binary cached at the expected path,
the cached-hit branch of `check_ffmpeg` succeeds without network access
but mutates the `PATH` environment variable, so it does not leave all
process state unchanged. -/
theorem claim2_counterexample :
    "/app/ffmpeg/bin/ffmpeg" ∈ wMacCached.files
    ∧ (check_ffmpeg envMacCached wMacCached).out = Except.ok "/app/ffmpeg/bin/ffmpeg"
    ∧ (check_ffmpeg envMacCached wMacCached).trace = []
    ∧ (check_ffmpeg envMacCached wMacCached).world.path_env ≠ wMacCached.path_env := by
  decide

/-- Claim C2 (amended): whenever the expected binary already exists at the
install-directory path, `check_ffmpeg` returns immediately with the cached
path, touches no network and spawns no subprocess (empty trace), and
leaves the filesystem unchanged — but it prepends the binary's directory
to the `PATH` environment variable, so process state is not left
unchanged. -/
theorem claim2_theorem (env : PyEnv) (w : FsWorld)
    (h : (get_ffmpeg_paths env.base env.system).1 ∈ w.files) :
    check_ffmpeg env w =
      ⟨⟨w.files,
        (get_ffmpeg_paths env.base env.system).2 ++ os_pathsep env.system ++ w.path_env⟩,
        [], Except.ok (get_ffmpeg_paths env.base env.system).1⟩ :=
  check_ffmpeg_cached env w h

theorem claim2_witness :
    "/app/ffmpeg/bin/ffmpeg" ∈ wMacCached.files
    ∧ check_ffmpeg envMacCached wMacCached =
      ⟨⟨wMacCached.files,
        (get_ffmpeg_paths envMacCached.base envMacCached.system).2
          ++ os_pathsep envMacCached.system ++ wMacCached.path_env⟩,
        [], Except.ok (get_ffmpeg_paths envMacCached.base envMacCached.system).1⟩ :=
  ⟨by decide, claim2_theorem envMacCached wMacCached (by decide)⟩

/-- Claim C5: the first `check_ffmpeg` call performs at most one network
fetch, and after a first call that succeeds and leaves the binary at the
expected path, a second call hits the cache: it returns the cached path
with an empty side-effect trace, hence zero network accesses and no
repeated install work. -/
theorem claim5_theorem (env : PyEnv) (w : FsWorld) (p : String)
    (h1 : (check_ffmpeg env w).out = Except.ok p)
    (h2 : (get_ffmpeg_paths env.base env.system).1 ∈ (check_ffmpeg env w).world.files) :
    netCount (check_ffmpeg env w).trace ≤ 1
    ∧ (check_ffmpeg env (check_ffmpeg env w).world).out
        = Except.ok (get_ffmpeg_paths env.base env.system).1
    ∧ (check_ffmpeg env (check_ffmpeg env w).world).trace = []
    ∧ netCount (check_ffmpeg env (check_ffmpeg env w).world).trace = 0 := by
  rw [check_ffmpeg_cached env _ h2]
  exact ⟨netCount_check_ffmpeg env w, rfl, rfl, rfl⟩

theorem claim5_witness :
    ((check_ffmpeg envMacRoot w0).out = Except.ok "/app/ffmpeg/bin/ffmpeg"
      ∧ (get_ffmpeg_paths envMacRoot.base envMacRoot.system).1
          ∈ (check_ffmpeg envMacRoot w0).world.files)
    ∧ (netCount (check_ffmpeg envMacRoot w0).trace ≤ 1
      ∧ (check_ffmpeg envMacRoot (check_ffmpeg envMacRoot w0).world).out
        = Except.ok (get_ffmpeg_paths envMacRoot.base envMacRoot.system).1
      ∧ (check_ffmpeg envMacRoot (check_ffmpeg envMacRoot w0).world).trace = []
      ∧ netCount (check_ffmpeg envMacRoot (check_ffmpeg envMacRoot w0).world).trace = 0) :=
  ⟨⟨by decide, by decide⟩,
    claim5_theorem envMacRoot w0 "/app/ffmpeg/bin/ffmpeg" (by decide) (by decide)⟩

/-- Claim C6: when the binary is not cached, `check_ffmpeg` probes the
system search path with `ffmpeg -version` under a timeout; it returns the
sentinel `"ffmpeg"` iff the probe exits zero within the timeout, in which
case the trace is just the probe (no download); on a nonzero exit or a
timeout it falls through to the install-then-recheck tail without
raising. -/
theorem claim6_theorem (env : PyEnv) (w : FsWorld) (rc : Int)
    (h : (get_ffmpeg_paths env.base env.system).1 ∉ w.files) :
    ((check_ffmpeg env w).out = Except.ok "ffmpeg"
        ↔ env.ffmpegProbe = ProbeOutcome.completed 0)
    ∧ (env.ffmpegProbe = ProbeOutcome.completed 0 →
        check_ffmpeg env w =
          ⟨w, [PyEvent.run ["ffmpeg", "-version"]], Except.ok "ffmpeg"⟩)
    ∧ (env.ffmpegProbe = ProbeOutcome.completed rc → rc ≠ 0 →
        check_ffmpeg env w =
          check_after_probe env w [PyEvent.run ["ffmpeg", "-version"]])
    ∧ (env.ffmpegProbe = ProbeOutcome.timedOut →
        check_ffmpeg env w =
          check_after_probe env w [PyEvent.run ["ffmpeg", "-version"]]) := by
  refine ⟨⟨?_, ?_⟩, ?_, ?_, ?_⟩
  · intro hok
    cases hp : env.ffmpegProbe with
    | completed rc' =>
      by_cases hrc : rc' = 0
      · subst hrc
        rfl
      · rw [check_ffmpeg_probe_nonzero env w rc' h hp hrc] at hok
        exact absurd hok (check_after_probe_not_sentinel env w _)
    | timedOut =>
      rw [check_ffmpeg_probe_timeout env w h hp] at hok
      exact absurd hok (check_after_probe_not_sentinel env w _)
    | fileNotFound =>
      rw [check_ffmpeg_probe_notfound env w h hp] at hok
      exact absurd hok (check_after_probe_not_sentinel env w _)
  · intro hp
    rw [check_ffmpeg_probe_hit env w h hp]
  · exact fun hp => check_ffmpeg_probe_hit env w h hp
  · exact fun hp hrc => check_ffmpeg_probe_nonzero env w rc h hp hrc
  · exact fun hp => check_ffmpeg_probe_timeout env w h hp

theorem claim6_witness :
    (get_ffmpeg_paths envLinuxProbe.base envLinuxProbe.system).1 ∉ w0.files
    ∧ (((check_ffmpeg envLinuxProbe w0).out = Except.ok "ffmpeg"
        ↔ envLinuxProbe.ffmpegProbe = ProbeOutcome.completed 0)
      ∧ (envLinuxProbe.ffmpegProbe = ProbeOutcome.completed 0 →
          check_ffmpeg envLinuxProbe w0 =
            ⟨w0, [PyEvent.run ["ffmpeg", "-version"]], Except.ok "ffmpeg"⟩)
      ∧ (envLinuxProbe.ffmpegProbe = ProbeOutcome.completed 1 → (1 : Int) ≠ 0 →
          check_ffmpeg envLinuxProbe w0 =
            check_after_probe envLinuxProbe w0 [PyEvent.run ["ffmpeg", "-version"]])
      ∧ (envLinuxProbe.ffmpegProbe = ProbeOutcome.timedOut →
          check_ffmpeg envLinuxProbe w0 =
            check_after_probe envLinuxProbe w0 [PyEvent.run ["ffmpeg", "-version"]])) :=
  ⟨by decide, claim6_theorem envLinuxProbe w0 1 (by decide)⟩

/-- Claim C7: a file present at the expected binary path is trusted as-is:
`check_ffmpeg` returns it with no validation action of any kind (empty
side-effect trace, filesystem untouched), and `install_ffmpeg` likewise
returns immediately without any network or install work. -/
theorem claim7_theorem (env : PyEnv) (w : FsWorld) (tr : List PyEvent)
    (h : (get_ffmpeg_paths env.base env.system).1 ∈ w.files) :
    ((check_ffmpeg env w).out = Except.ok (get_ffmpeg_paths env.base env.system).1
      ∧ (check_ffmpeg env w).trace = []
      ∧ (check_ffmpeg env w).world.files = w.files)
    ∧ install_ffmpeg env w tr = ⟨w, tr, Except.ok ()⟩ := by
  constructor
  · rw [check_ffmpeg_cached env w h]
    exact ⟨rfl, rfl, rfl⟩
  · exact install_ffmpeg_cached env w tr h

theorem claim7_witness :
    "/app/ffmpeg/bin/ffmpeg" ∈ wMacCached.files
    ∧ (((check_ffmpeg envMacCached wMacCached).out
          = Except.ok (get_ffmpeg_paths envMacCached.base envMacCached.system).1
        ∧ (check_ffmpeg envMacCached wMacCached).trace = []
        ∧ (check_ffmpeg envMacCached wMacCached).world.files = wMacCached.files)
      ∧ install_ffmpeg envMacCached wMacCached []
          = ⟨wMacCached, [], Except.ok ()⟩) :=
  ⟨by decide, claim7_theorem envMacCached wMacCached [] (by decide)⟩

/-- Claim C1 counterexample: a run in which every acquisition path fails
(Linux, no cache, probe misses, apt and yum both fail) raises the bare
`Exception("Could not install FFmpeg automatically on Linux")`, which is
not a tagged `InstallationError` carrying one of the four specific
reasons. -/
theorem claim1_counterexample :
    (check_ffmpeg envLinuxFail w0).out
      = Except.error (PyErr.exception "Could not install FFmpeg automatically on Linux")
    ∧ isInstallationError
        (PyErr.exception "Could not install FFmpeg automatically on Linux") = false := by
  decide

/-- Claim C1 (amended): `check_ffmpeg` raises only after every acquisition
path is exhausted — the cached file was absent, the system-path probe did
not exit zero, and the expected binary is still absent when the failure
escapes — but the failure is one of Python's ordinary untagged exceptions
(a bare `Exception` with a human-readable message, `CalledProcessError`,
`BadZipFile` or `URLError`), not a single tagged `InstallationError`
carrying one of the reasons NetworkFailure / ExtractionFailure /
FilesystemFailure / VerificationFailure. -/
theorem claim1_theorem (env : PyEnv) (w : FsWorld) (e : PyErr)
    (h : (check_ffmpeg env w).out = Except.error e) :
    (get_ffmpeg_paths env.base env.system).1 ∉ w.files
    ∧ env.ffmpegProbe ≠ ProbeOutcome.completed 0
    ∧ (get_ffmpeg_paths env.base env.system).1 ∉ (check_ffmpeg env w).world.files
    ∧ isInstallationError e = false := by
  by_cases hm : (get_ffmpeg_paths env.base env.system).1 ∈ w.files
  · rw [check_ffmpeg_cached env w hm] at h
    simp at h
  · cases hp : env.ffmpegProbe with
    | completed rc =>
      by_cases hrc : rc = 0
      · subst hrc
        rw [check_ffmpeg_probe_hit env w hm hp] at h
        simp at h
      · rw [check_ffmpeg_probe_nonzero env w rc hm hp hrc] at h ⊢
        have hs := check_after_probe_error_shape env w _ e hm h
        exact ⟨hm, by simp [hrc], hs.1, hs.2⟩
    | timedOut =>
      rw [check_ffmpeg_probe_timeout env w hm hp] at h ⊢
      have hs := check_after_probe_error_shape env w _ e hm h
      exact ⟨hm, by simp, hs.1, hs.2⟩
    | fileNotFound =>
      rw [check_ffmpeg_probe_notfound env w hm hp] at h ⊢
      have hs := check_after_probe_error_shape env w _ e hm h
      exact ⟨hm, by simp, hs.1, hs.2⟩

theorem claim1_witness :
    (check_ffmpeg envLinuxFail w0).out
      = Except.error (PyErr.exception "Could not install FFmpeg automatically on Linux")
    ∧ ((get_ffmpeg_paths envLinuxFail.base envLinuxFail.system).1 ∉ w0.files
      ∧ envLinuxFail.ffmpegProbe ≠ ProbeOutcome.completed 0
      ∧ (get_ffmpeg_paths envLinuxFail.base envLinuxFail.system).1
          ∉ (check_ffmpeg envLinuxFail w0).world.files
      ∧ isInstallationError
          (PyErr.exception "Could not install FFmpeg automatically on Linux") = false) :=
  ⟨by decide,
    claim1_theorem envLinuxFail w0
      (PyErr.exception "Could not install FFmpeg automatically on Linux") (by decide)⟩

/-- Claim C10: when installation succeeds through a system package manager
(apt or yum on Linux, Homebrew on macOS) that places the binary somewhere
on the system search path rather than at the local expected path,
`check_ffmpeg` still raises its installation-failure exception, because
after installing it only re-tests existence of the local expected binary
path and never re-probes the system search path. -/
theorem claim10_theorem (env : PyEnv) (w : FsWorld)
    (hprobe : env.ffmpegProbe ≠ ProbeOutcome.completed 0)
    (hnc : (get_ffmpeg_paths env.base env.system).1 ∉ w.files)
    (hpm : (get_ffmpeg_paths env.base env.system).1 ∉ env.pmFiles) :
    (env.system = "Linux" →
      (env.aptInstall = RunOutcome.ok ∨ env.yumInstall = RunOutcome.ok) →
      (install_ffmpeg env w []).out = Except.ok ()
      ∧ (check_ffmpeg env w).out = Except.error
          (PyErr.exception "Failed to install FFmpeg. Please install it manually."))
    ∧ (env.system = "Darwin" →
      env.brewVersion = RunOutcome.ok → env.brewInstall = RunOutcome.ok →
      (install_ffmpeg env w []).out = Except.ok ()
      ∧ (check_ffmpeg env w).out = Except.error
          (PyErr.exception "Failed to install FFmpeg. Please install it manually.")) := by
  constructor
  · intro hsys hdisj
    have hw : env.system ≠ "Windows" := by rw [hsys]; decide
    have hd : env.system ≠ "Darwin" := by rw [hsys]; decide
    have hinstall : ∀ tr : List PyEvent,
        install_ffmpeg env w tr =
          ⟨⟨env.pmFiles ++ w.files, w.path_env⟩, (install_ffmpeg_linux env w tr).trace,
            Except.ok ()⟩ := by
      intro tr
      rw [install_ffmpeg_linux_dispatch env w tr hnc hw hd]
      by_cases ha : env.aptInstall = RunOutcome.ok
      · rw [install_linux_apt env w tr ha]
      · cases hdisj with
        | inl h' => exact absurd h' ha
        | inr hy => rw [install_linux_yum env w tr ha hy]
    have hmiss : (get_ffmpeg_paths env.base env.system).1
        ∉ (install_ffmpeg env w [PyEvent.run ["ffmpeg", "-version"]]).world.files := by
      rw [hinstall]
      simp [List.mem_append, hnc, hpm]
    constructor
    · rw [hinstall]
    · rw [check_ffmpeg_fallthrough env w hnc hprobe,
        check_after_probe_miss env w _ (by rw [hinstall]) hmiss]
  · intro hsys hbv hbi
    have hinstall : ∀ tr : List PyEvent,
        install_ffmpeg env w tr =
          ⟨⟨env.pmFiles ++ w.files, w.path_env⟩, (install_ffmpeg_mac env w tr).trace,
            Except.ok ()⟩ := by
      intro tr
      rw [install_ffmpeg_darwin_dispatch env w tr hnc hsys,
        install_mac_brew env w tr hbv hbi]
    have hmiss : (get_ffmpeg_paths env.base env.system).1
        ∉ (install_ffmpeg env w [PyEvent.run ["ffmpeg", "-version"]]).world.files := by
      rw [hinstall]
      simp [List.mem_append, hnc, hpm]
    constructor
    · rw [hinstall]
    · rw [check_ffmpeg_fallthrough env w hnc hprobe,
        check_after_probe_miss env w _ (by rw [hinstall]) hmiss]

theorem claim10_witness :
    (envLinuxApt.ffmpegProbe ≠ ProbeOutcome.completed 0
      ∧ (get_ffmpeg_paths envLinuxApt.base envLinuxApt.system).1 ∉ w0.files
      ∧ (get_ffmpeg_paths envLinuxApt.base envLinuxApt.system).1 ∉ envLinuxApt.pmFiles
      ∧ envLinuxApt.system = "Linux" ∧ envLinuxApt.aptInstall = RunOutcome.ok)
    ∧ ((install_ffmpeg envLinuxApt w0 []).out = Except.ok ()
      ∧ (check_ffmpeg envLinuxApt w0).out = Except.error
          (PyErr.exception "Failed to install FFmpeg. Please install it manually.")) :=
  ⟨⟨by decide, by decide, by decide, by decide, by decide⟩,
    (claim10_theorem envLinuxApt w0 (by decide) (by decide) (by decide)).1
      (by decide) (Or.inl (by decide))⟩

/-- Claim C3 counterexample: with the target binary nested two directories
deep inside the zip, extraction completes but writes it to the nested
path, the expected path stays absent, and the resolution fails — the code
does not locate the binary by scanning entries for a filename match. -/
theorem claim3_counterexample :
    (check_ffmpeg envMacNested w0).out
      = Except.error (PyErr.exception "Failed to install FFmpeg. Please install it manually.")
    ∧ "/app/ffmpeg/bin/sub1/sub2/ffmpeg" ∈ (check_ffmpeg envMacNested w0).world.files
    ∧ "/app/ffmpeg/bin/ffmpeg" ∉ (check_ffmpeg envMacNested w0).world.files := by
  decide

/-- Claim C3 (amended): the installation step handles only a zip container
(the tar module is imported but never used), and it performs no per-entry
scan for the binary's filename: `extractall` writes every entry beneath
the extraction directory with its internal path preserved, so the binary
reaches the expected path exactly when it sits at the archive root, and a
nested binary lands at a nested path instead. -/
theorem claim3_theorem (env : PyEnv) (w : FsWorld) (tr : List PyEvent)
    (hb : env.brewVersion ≠ RunOutcome.ok)
    (hf : env.macFetch = true) (hz : env.zipOpens = true) :
    (install_ffmpeg_mac env w tr).out = Except.ok ()
    ∧ (install_ffmpeg_mac env w tr).world.files =
        (extractall (env.base ++ "/ffmpeg/bin") env.zipEntries
          ++ (env.base ++ "/ffmpeg.zip") :: w.files).erase (env.base ++ "/ffmpeg.zip")
    ∧ (env.zipEntries = ["ffmpeg"] →
        (get_ffmpeg_paths env.base "Darwin").1 ∈ (install_ffmpeg_mac env w tr).world.files) := by
  have hb' : ¬(env.brewVersion = RunOutcome.ok ∧ env.brewInstall = RunOutcome.ok) :=
    fun hc => hb hc.1
  rw [install_mac_static_ok env w tr hb' hf hz]
  refine ⟨rfl, rfl, ?_⟩
  intro he
  rw [he]
  have hexe : (get_ffmpeg_paths env.base "Darwin").1 = env.base ++ "/ffmpeg/bin/ffmpeg" := by
    rw [get_ffmpeg_paths_exe]
    simp only [show (("Darwin" : String) == "Windows") = false by decide,
      Bool.false_eq_true, if_false]
  have hentry : ((env.base ++ "/ffmpeg/bin") ++ "/") ++ "ffmpeg"
      = env.base ++ "/ffmpeg/bin/ffmpeg" := by
    simp only [String.append_assoc]
    congr 1
  have hne : env.base ++ "/ffmpeg/bin/ffmpeg" ≠ env.base ++ "/ffmpeg.zip" :=
    str_app_ne env.base (by decide)
  rw [hexe]
  refine (List.mem_erase_of_ne hne).mpr ?_
  apply List.mem_append_left
  simp only [extractall, List.map_cons, List.map_nil, List.mem_singleton]
  exact hentry.symm

theorem claim3_witness :
    (envMacRoot.brewVersion ≠ RunOutcome.ok
      ∧ envMacRoot.macFetch = true ∧ envMacRoot.zipOpens = true
      ∧ envMacRoot.zipEntries = ["ffmpeg"])
    ∧ ((install_ffmpeg_mac envMacRoot w0 []).out = Except.ok ()
      ∧ (install_ffmpeg_mac envMacRoot w0 []).world.files =
          (extractall (envMacRoot.base ++ "/ffmpeg/bin") envMacRoot.zipEntries
            ++ (envMacRoot.base ++ "/ffmpeg.zip") :: w0.files).erase
            (envMacRoot.base ++ "/ffmpeg.zip")
      ∧ (get_ffmpeg_paths envMacRoot.base "Darwin").1
          ∈ (install_ffmpeg_mac envMacRoot w0 []).world.files) := by
  have hmain := claim3_theorem envMacRoot w0 [] (by decide) (by decide) (by decide)
  exact ⟨⟨by decide, by decide, by decide, by decide⟩,
    hmain.1, hmain.2.1, hmain.2.2 (by decide)⟩

/-- Claim C4 counterexample: when the downloaded file turns out not to be
a valid zip, `ZipFile` raises after the archive was written and before the
removal line runs (there is no `finally`), so the failed resolve leaves
the temporary archive `/app/ffmpeg.zip` on disk. -/
theorem claim4_counterexample :
    (check_ffmpeg envMacBadZip w0).out = Except.error PyErr.badZipFile
    ∧ "/app/ffmpeg.zip" ∈ (check_ffmpeg envMacBadZip w0).world.files := by
  decide

/-- Claim C4 (amended): on the macOS static-install path the temporary
archive is removed only when extraction succeeds — there is no temporary
extraction directory at all, the archive being extracted directly into the
install directory — and when `ZipFile` raises, the downloaded archive file
remains on disk after the call fails. -/
theorem claim4_theorem (env : PyEnv) (w : FsWorld) (tr : List PyEvent)
    (hb : env.brewVersion ≠ RunOutcome.ok)
    (hf : env.macFetch = true)
    (hw : env.base ++ "/ffmpeg.zip" ∉ w.files)
    (hx : env.base ++ "/ffmpeg.zip"
        ∉ extractall (env.base ++ "/ffmpeg/bin") env.zipEntries) :
    (env.zipOpens = true →
      (install_ffmpeg_mac env w tr).out = Except.ok ()
      ∧ env.base ++ "/ffmpeg.zip" ∉ (install_ffmpeg_mac env w tr).world.files)
    ∧ (env.zipOpens = false →
      (install_ffmpeg_mac env w tr).out = Except.error PyErr.badZipFile
      ∧ env.base ++ "/ffmpeg.zip" ∈ (install_ffmpeg_mac env w tr).world.files) := by
  have hb' : ¬(env.brewVersion = RunOutcome.ok ∧ env.brewInstall = RunOutcome.ok) :=
    fun hc => hb hc.1
  constructor
  · intro hz
    rw [install_mac_static_ok env w tr hb' hf hz]
    refine ⟨rfl, ?_⟩
    rw [List.erase_append_right _ (by simpa using hx), List.erase_cons_head]
    simp [List.mem_append, hx, hw]
  · intro hz
    rw [install_mac_badzip env w tr hb' hf hz]
    exact ⟨rfl, List.mem_cons_self _ _⟩

theorem claim4_witness :
    (envMacBadZip.brewVersion ≠ RunOutcome.ok
      ∧ envMacBadZip.macFetch = true
      ∧ envMacBadZip.base ++ "/ffmpeg.zip" ∉ w0.files
      ∧ envMacBadZip.base ++ "/ffmpeg.zip"
          ∉ extractall (envMacBadZip.base ++ "/ffmpeg/bin") envMacBadZip.zipEntries
      ∧ envMacBadZip.zipOpens = false)
    ∧ ((install_ffmpeg_mac envMacBadZip w0 []).out = Except.error PyErr.badZipFile
      ∧ envMacBadZip.base ++ "/ffmpeg.zip"
          ∈ (install_ffmpeg_mac envMacBadZip w0 []).world.files) :=
  ⟨⟨by decide, by decide, by decide, by decide, by decide⟩,
    (claim4_theorem envMacBadZip w0 [] (by decide) (by decide) (by decide)
      (by decide)).2 (by decide)⟩

/-- Claim C8 counterexample: a failed resolution inside `download_video`
does not propagate as a failure outcome — the `except Exception` handler
prints the error and `download_video` returns normally. -/
theorem claim8_counterexample :
    (check_ffmpeg envLinuxFail w0).out
      = Except.error (PyErr.exception "Could not install FFmpeg automatically on Linux")
    ∧ (download_video envLinuxFail w0 "https://youtu.be/dQw4w9WgXcQ").out
        = Except.ok () := by
  decide

/-- Claim C8 (amended): no failure in the resolution component is retried
(a resolution performs at most one network fetch), and failures propagate
out of `check_ffmpeg` as exceptions; however `download_video` catches the
exception, prints it, and returns normally, so a failed resolve does not
propagate as a failure outcome of `download_video`. -/
theorem claim8_theorem (env : PyEnv) (w : FsWorld) (url : String) (e : PyErr)
    (h : (check_ffmpeg env w).out = Except.error e) :
    (download_video env w url).out = Except.ok ()
    ∧ (download_video env w url).world = (check_ffmpeg env w).world
    ∧ (download_video env w url).trace = (check_ffmpeg env w).trace
    ∧ netCount (check_ffmpeg env w).trace ≤ 1 := by
  refine ⟨?_, ?_, ?_, netCount_check_ffmpeg env w⟩ <;>
    unfold download_video <;> simp [h]

theorem claim8_witness :
    (check_ffmpeg envLinuxFail w0).out
      = Except.error (PyErr.exception "Could not install FFmpeg automatically on Linux")
    ∧ ((download_video envLinuxFail w0 "https://youtu.be/dQw4w9WgXcQ").out = Except.ok ()
      ∧ (download_video envLinuxFail w0 "https://youtu.be/dQw4w9WgXcQ").world
          = (check_ffmpeg envLinuxFail w0).world
      ∧ (download_video envLinuxFail w0 "https://youtu.be/dQw4w9WgXcQ").trace
          = (check_ffmpeg envLinuxFail w0).trace
      ∧ netCount (check_ffmpeg envLinuxFail w0).trace ≤ 1) :=
  ⟨by decide,
    claim8_theorem envLinuxFail w0 "https://youtu.be/dQw4w9WgXcQ"
      (PyErr.exception "Could not install FFmpeg automatically on Linux") (by decide)⟩

/-- Same scenario as `envMacRoot` but on an Intel machine. -/
def envMacIntel : PyEnv :=
  ⟨"/app", "Darwin", "x86_64", ProbeOutcome.fileNotFound,
    RunOutcome.fileNotFound, RunOutcome.fileNotFound,
    RunOutcome.calledProcessError, RunOutcome.calledProcessError,
    RunOutcome.fileNotFound, true, true, ["ffmpeg"], []⟩

theorem net_mem_windows (env : PyEnv) (w : FsWorld) (tr : List PyEvent) :
    PyEvent.net windows_ffmpeg_url ∈ (install_ffmpeg_windows env w tr).trace := by
  cases h : env.winFetch with
  | ok =>
    cases hz : env.zipOpens with
    | true => rw [install_windows_ok env w tr h hz]; simp
    | false => rw [install_windows_badzip env w tr h hz]; simp
  | calledProcessError => rw [install_windows_fetch_fail env w tr (by simp [h])]; simp
  | fileNotFound => rw [install_windows_fetch_fail env w tr (by simp [h])]; simp
  | timedOut => rw [install_windows_fetch_fail env w tr (by simp [h])]; simp

theorem net_mem_mac (env : PyEnv) (w : FsWorld) (tr : List PyEvent)
    (hb : ¬(env.brewVersion = RunOutcome.ok ∧ env.brewInstall = RunOutcome.ok)) :
    PyEvent.net (mac_ffmpeg_url env.machine) ∈ (install_ffmpeg_mac env w tr).trace := by
  cases hf : env.macFetch with
  | false => rw [install_mac_fetch_fail env w tr hb hf]; simp
  | true =>
    cases hz : env.zipOpens with
    | true => rw [install_mac_static_ok env w tr hb hf hz]; simp
    | false => rw [install_mac_badzip env w tr hb hf hz]; simp

/-- Claim C9 counterexample: the macOS code branches on the CPU
architecture but both branches select the same URL, so the arm64 and
Intel runs receive the identical distribution (identical fetch traces). -/
theorem claim9_counterexample :
    mac_ffmpeg_url "arm64" = mac_ffmpeg_url "x86_64"
    ∧ envMacRoot.machine = "arm64"
    ∧ envMacIntel.machine = "x86_64"
    ∧ (install_ffmpeg_mac envMacRoot w0 []).trace
        = (install_ffmpeg_mac envMacIntel w0 []).trace := by
  decide

/-- Claim C9 (amended): the detected operating system selects the install
branch — Windows fetches the gyan.dev essentials zip, macOS (when
Homebrew is unavailable) fetches the evermeet static zip, and Linux
performs no download at all (package managers) — but although the macOS
code inspects the CPU architecture, the arm64 and Intel branches select
the identical URL, so distinct architectures do not receive distinct
distributions. -/
theorem claim9_theorem (env : PyEnv) (w : FsWorld)
    (hnc : (get_ffmpeg_paths env.base env.system).1 ∉ w.files) :
    (env.system = "Windows" →
      PyEvent.net windows_ffmpeg_url ∈ (install_ffmpeg env w []).trace)
    ∧ (env.system = "Darwin" → env.brewVersion ≠ RunOutcome.ok →
      PyEvent.net (mac_ffmpeg_url env.machine) ∈ (install_ffmpeg env w []).trace)
    ∧ (env.system = "Linux" → netCount (install_ffmpeg env w []).trace = 0)
    ∧ mac_ffmpeg_url "arm64" = mac_ffmpeg_url "x86_64" := by
  refine ⟨?_, ?_, ?_, by decide⟩
  · intro hsys
    rw [install_ffmpeg_windows_dispatch env w [] hnc hsys]
    exact net_mem_windows env w []
  · intro hsys hb
    rw [install_ffmpeg_darwin_dispatch env w [] hnc hsys]
    exact net_mem_mac env w [] (fun hc => hb hc.1)
  · intro hsys
    rw [install_ffmpeg_linux_dispatch env w [] hnc (by rw [hsys]; decide)
      (by rw [hsys]; decide), netCount_linux]
    rfl

theorem claim9_witness :
    (get_ffmpeg_paths envMacRoot.base envMacRoot.system).1 ∉ w0.files
    ∧ ((envMacRoot.system = "Windows" →
        PyEvent.net windows_ffmpeg_url ∈ (install_ffmpeg envMacRoot w0 []).trace)
      ∧ (envMacRoot.system = "Darwin" → envMacRoot.brewVersion ≠ RunOutcome.ok →
        PyEvent.net (mac_ffmpeg_url envMacRoot.machine)
          ∈ (install_ffmpeg envMacRoot w0 []).trace)
      ∧ (envMacRoot.system = "Linux" → netCount (install_ffmpeg envMacRoot w0 []).trace = 0)
      ∧ mac_ffmpeg_url "arm64" = mac_ffmpeg_url "x86_64") :=
  ⟨by decide, claim9_theorem envMacRoot w0 (by decide)⟩
